import Mathlib

/-!
Shallow embedding of `src/lib.rs` of the `system_info` crate.

Rust strings are modelled as `List Char` (Unicode scalar values); only the
ASCII whitespace classes (space, tab, CR, LF) are modelled for `trim` /
`split_whitespace`, which is what every input handled by this crate uses.
External effects (sysctl reads, file reads, process spawns) are modelled by
an explicit environment record `Env`: each field holds the outcome the host
would deliver for one fixed source (`none` = the read/spawn fails).
A Rust panic (`unwrap` / `expect` on a spawn) is modelled as `Option.none`
in the result of the function that panics; a recoverable `Err` value is an
`Except.error`.
-/

/-- Rust `String` / `&str`, as its list of Unicode scalar values. -/
abbrev Str := List Char

/-- Numeric value of a list of decimal digits (how Rust's integer `parse`
accumulates digits). -/
def digitsVal (l : Str) : Nat :=
  l.foldl (fun a c => a * 10 + (c.toNat - 48)) 0

/-- Rust `str::parse::<uN>` for an unsigned integer type with exclusive upper
bound `bound`: an optional leading `+`, then one or more ASCII digits, and the
value must fit in the type (otherwise the parse errors with overflow). -/
def parseUInt (bound : Nat) (tok : Str) : Option Nat :=
  let ds := match tok with
    | '+' :: rest => rest
    | _ => tok
  if ds ≠ [] ∧ ds.all Char.isDigit ∧ digitsVal ds < bound then some (digitsVal ds)
  else none

/-- Rust `str::parse::<u64>`. -/
def parseU64 (tok : Str) : Option Nat := parseUInt (2 ^ 64) tok

/-- Rust `str::parse::<u32>`. -/
def parseU32 (tok : Str) : Option Nat := parseUInt (2 ^ 32) tok

/-- Split on every character satisfying `p`, keeping empty segments
(the behaviour of Rust `str::split`). Never returns `[]`. -/
def splitP (p : Char → Bool) : Str → List Str
  | [] => [[]]
  | c :: rest =>
    if p c then [] :: splitP p rest
    else
      match splitP p rest with
      | [] => [[c]]
      | s :: ss => (c :: s) :: ss

/-- Rust `str::split(sep)` for a single-character pattern. -/
def splitChar (sep : Char) (l : Str) : List Str := splitP (fun c => c = sep) l

/-- Rust `str::split_whitespace`: split on runs of whitespace, no empty
segments. -/
def splitWs (l : Str) : List Str :=
  (splitP Char.isWhitespace l).filter (fun s => s ≠ [])

/-- Rust `str::trim` (ASCII whitespace). -/
def trimL (l : Str) : Str :=
  ((l.dropWhile Char.isWhitespace).reverse.dropWhile Char.isWhitespace).reverse

/-- Drop a single trailing carriage return, as Rust `lines` does on a segment
that was terminated by a line feed. -/
def dropTrailingCR (l : Str) : Str :=
  match l.getLast? with
  | some c => if c = '\r' then l.dropLast else l
  | none => l

/-- Rust `str::lines`: split at `\n`, strip a `\r` preceding each `\n`, and do
not yield a final empty line for a trailing line feed. -/
def linesOf (s : Str) : List Str :=
  let parts := splitChar '\n' s
  let last := parts.getLast?.getD []
  let front := parts.dropLast.map dropTrailingCR
  if last = [] then front else front ++ [last]

/-- Rust `str::contains(pat)` (substring containment). -/
def containsSub (pat : Str) : Str → Bool
  | [] => pat.isEmpty
  | c :: rest => pat.isPrefixOf (c :: rest) || containsSub pat rest

/-- Rust `str::trim_start_matches(pat)`: repeatedly remove the prefix `pat`
while present. `fuel` bounds the recursion; it is instantiated with the length
of the string, which suffices since every strip removes at least one
character. -/
def trimStartMatchesAux (pat : Str) : Nat → Str → Str
  | 0, l => l
  | fuel + 1, l =>
    if !pat.isEmpty && pat.isPrefixOf l then trimStartMatchesAux pat fuel (l.drop pat.length)
    else l

/-- Rust `str::trim_start_matches(pat)`. -/
def trimStartMatches (l pat : Str) : Str := trimStartMatchesAux pat l.length l

/-- Rust `s.replace(pat, "")` for the single-character pattern `"\""`:
removing every occurrence of one character is filtering it out. -/
def removeQuotes (l : Str) : Str := l.filter (fun c => c ≠ '"')

/-- Leftmost match of the regex `pat(.+)` inside one line (which contains no
line feed): find the first position where the literal `pat` occurs followed by
at least one character, and capture everything after the literal (greedy
`.+`). -/
def captureRest (pat : Str) : Str → Option Str
  | [] => none
  | c :: rest =>
    if pat.isPrefixOf (c :: rest) && !((c :: rest).drop pat.length).isEmpty then
      some ((c :: rest).drop pat.length)
    else captureRest pat rest

/-- Leftmost match of the regex `pat(\d+)` inside one line: find the first
position where the literal `pat` occurs followed by at least one ASCII digit,
and capture the maximal digit run after the literal (greedy `\d+`). -/
def captureDigits (pat : Str) : Str → Option Str
  | [] => none
  | c :: rest =>
    if pat.isPrefixOf (c :: rest) && (((c :: rest).drop pat.length).headD ' ').isDigit then
      some (((c :: rest).drop pat.length).takeWhile Char.isDigit)
    else captureDigits pat rest

/-- Models `s.parse::<f32>().ok().map(|m| (m / 1024.0) as u32)` from
`get_gpu_info_from_nvidia_smi`, on the inputs `nvidia-smi
--format=csv,noheader,nounits` produces: decimal-integer MiB counts. For a
digit string whose value is below `2^24` the `f32` holds the integer exactly,
division by the power of two `1024` is exact, and the `as u32` cast truncates
toward zero, so the composite equals truncating division by 1024. Inputs
outside that domain (non-numeric, fractional, or huge values subject to `f32`
rounding) are not modelled and map to `none`. -/
def parse_f32_mib_to_gb (s : Str) : Option Nat :=
  if s ≠ [] ∧ s.all Char.isDigit ∧ digitsVal s < 2 ^ 24 then some (digitsVal s / 1024)
  else none

/-- `CPUInfo` of `src/lib.rs`. -/
structure CPUInfo where
  manufacturer : Str
  model : Str
  cores : Nat
  deriving DecidableEq, Repr

/-- `GPUInfo` of `src/lib.rs`. -/
structure GPUInfo where
  manufacturer : Str
  model : Str
  memory : Option Nat
  cores : Option Nat
  deriving DecidableEq, Repr

/-- `RAMInfo` of `src/lib.rs`. -/
structure RAMInfo where
  total : Nat
  deriving DecidableEq, Repr

/-- `OSInfo` of `src/lib.rs`. -/
structure OSInfo where
  name : Str
  version : Str
  architecture : Str
  deriving DecidableEq, Repr

/-- `SystemInfo` of `src/lib.rs`. `gpu = none` is serde-omitted. -/
structure SystemInfo where
  cpu : CPUInfo
  gpu : Option (List GPUInfo)
  ram : RAMInfo
  os : OSInfo
  deriving DecidableEq, Repr

/-- The captured outcome of one successfully spawned external command:
`status.success()`, stdout and stderr (decoded as text). -/
structure CmdOutput where
  success : Bool
  stdout : Str
  stderr : Str
  deriving DecidableEq, Repr

/-- The `cfg!(target_os = ...)` classification. -/
inductive Platform where
  | macos
  | linux
  | other
  deriving DecidableEq, Repr

/-- One fixed snapshot of everything the host can deliver to the crate.
`none` means the corresponding read or spawn fails. -/
structure Env where
  platform : Platform
  /-- sysctl `machdep.cpu.brand_string`. -/
  machdep_cpu_brand_string : Option Str
  /-- sysctl `hw.memsize`. -/
  hw_memsize : Option Str
  /-- sysctl `kern.osrelease`. -/
  kern_osrelease : Option Str
  /-- sysctl `hw.machine`. -/
  hw_machine : Option Str
  /-- `std::thread::available_parallelism()`: `Ok` carries a `NonZeroUsize`. -/
  available_parallelism : Option { n : Nat // 0 < n }
  /-- contents of `/proc/meminfo`. -/
  proc_meminfo : Option Str
  /-- contents of `/etc/os-release`. -/
  etc_os_release : Option Str
  /-- contents of `/proc/version`. -/
  proc_version : Option Str
  /-- `std::env::consts::ARCH`, a compile-time constant. -/
  consts_arch : Str
  /-- `system_profiler SPDisplaysDataType`. -/
  system_profiler_out : Option CmdOutput
  /-- `nvidia-smi --version`. -/
  nvidia_smi_version_out : Option CmdOutput
  /-- `nvidia-smi` with no arguments. -/
  nvidia_smi_plain_out : Option CmdOutput
  /-- `nvidia-smi --query-gpu=name,memory.total --format=csv,noheader,nounits`. -/
  nvidia_smi_query_out : Option CmdOutput
  /-- `lshw -C display`. -/
  lshw_out : Option CmdOutput
  deriving DecidableEq

/-- The `Box<dyn Error>` values the GPU detectors can produce. -/
inductive GpuError where
  /-- `Command::output()` returned `Err`, propagated by `?`. -/
  | spawnFailed (cmd : Str)
  /-- the tool ran but exited with non-success status; carries its stderr. -/
  | toolFailed (cmd : Str) (stderr : Str)
  deriving DecidableEq, Repr

/-- Decidable equality for the `Result` values the GPU detectors return. -/
instance {ε α : Type} [DecidableEq ε] [DecidableEq α] : DecidableEq (Except ε α) := fun a b =>
  match a, b with
  | .ok x, .ok y =>
    if h : x = y then .isTrue (by rw [h]) else .isFalse (fun hc => by cases hc; exact h rfl)
  | .error x, .error y =>
    if h : x = y then .isTrue (by rw [h]) else .isFalse (fun hc => by cases hc; exact h rfl)
  | .ok _, .error _ => .isFalse (fun hc => by cases hc)
  | .error _, .ok _ => .isFalse (fun hc => by cases hc)

/-- `get_cpu_info` of `src/lib.rs`. -/
def get_cpu_info (env : Env) : CPUInfo :=
  { manufacturer := if env.platform = .macos then ("Apple".data) else ("Intel/AMD".data)
    model :=
      if env.platform = .macos then (env.machdep_cpu_brand_string).getD ("Unknown".data)
      else ("Generic Model".data)
    cores :=
      match env.available_parallelism with
      | some n => n.val
      | none => 1 }

/-- `get_ram_info` of `src/lib.rs`. -/
def get_ram_info (env : Env) : RAMInfo :=
  if env.platform = .macos then
    let total_memory_kb :=
      match env.hw_memsize with
      | some value => (parseU64 value).getD 0
      | none => 0
    { total := total_memory_kb / 1024 / 1024 / 1024 }
  else if env.platform = .linux then
    let meminfo := env.proc_meminfo.getD []
    let total_line :=
      ((linesOf meminfo).find? (fun l => ("MemTotal".data).isPrefixOf l)).getD
        ("MemTotal: 0 kB".data)
    let total_kb := (((splitWs total_line).get? 1).bind parseU64).getD 0
    { total := total_kb / 1024 / 1024 }
  else
    { total := 0 }

/-- `get_os_info` of `src/lib.rs`. -/
def get_os_info (env : Env) : OSInfo :=
  if env.platform = .macos then
    { name := ("macOS".data)
      version := (env.kern_osrelease).getD ("Unknown".data)
      architecture := (env.hw_machine).getD ("Unknown".data) }
  else if env.platform = .linux then
    let os_name :=
      (((linesOf (env.etc_os_release.getD [])).find?
            (fun l => ("PRETTY_NAME".data).isPrefixOf l)).bind
          (fun line => ((splitChar '=' line).get? 1).map removeQuotes)).getD
        ("Linux".data)
    { name := os_name
      version := (env.proc_version).getD ("Unknown".data)
      architecture := env.consts_arch }
  else
    { name := ("Unknown".data), version := ("Unknown".data), architecture := ("Unknown".data) }

/-- The body of the `for line in stdout.lines()` loop of `get_macos_gpu_info`:
try the three regexes in the source's `if / else if` order (Chipset Model,
then Total Number of Cores, then Vendor) and update one field of the
accumulated record. -/
def macos_gpu_line_step (gpu : GPUInfo) (line : Str) : GPUInfo :=
  match captureRest ("Chipset Model: ".data) line with
  | some cap => { gpu with model := trimL cap }
  | none =>
    match captureDigits ("Total Number of Cores: ".data) line with
    | some ds => { gpu with cores := some ((parseU32 (trimL ds)).getD 0) }
    | none =>
      match captureRest ("Vendor: ".data) line with
      | some cap => { gpu with manufacturer := trimL cap }
      | none => gpu

/-- `get_macos_gpu_info` of `src/lib.rs`. `none` models the `unwrap` panic
when `system_profiler` cannot be spawned. -/
def get_macos_gpu_info (env : Env) : Option (List GPUInfo) :=
  (env.system_profiler_out).map fun output =>
    [(linesOf output.stdout).foldl macos_gpu_line_step
        { manufacturer := ("Unknown".data), model := ("Unknown".data), memory := none,
          cores := none }]

/-- `is_nvidia_smi_installed` of `src/lib.rs`: `map_or(false, success)` over
`nvidia-smi --version`. -/
def is_nvidia_smi_installed (env : Env) : Bool :=
  match env.nvidia_smi_version_out with
  | some output => output.success
  | none => false

/-- `wasmedge_on_gpu` of `src/lib.rs`: run plain `nvidia-smi` (`none` models
the `expect` panic on spawn failure) and test whether any stdout line contains
`wasmedge`. -/
def wasmedge_on_gpu (env : Env) : Option Bool :=
  (env.nvidia_smi_plain_out).map fun output =>
    !((linesOf output.stdout).filter (fun line => containsSub ("wasmedge".data) line)).isEmpty

/-- The body of the `for line in stdout.lines()` loop of
`get_gpu_info_from_nvidia_smi`: split on commas, trim each field, and when
there are exactly two fields push one record. -/
def nvidia_smi_parse_line (gpus : List GPUInfo) (line : Str) : List GPUInfo :=
  let fields := (splitChar ',' line).map trimL
  if fields.length = 2 then
    let memory := parse_f32_mib_to_gb ((fields.get? 1).getD [])
    gpus ++
      [{ manufacturer := ("NVIDIA".data), model := (fields.get? 0).getD [], memory := memory,
         cores := none }]
  else gpus

/-- `get_gpu_info_from_nvidia_smi` of `src/lib.rs`. Outer `none` models the
panic inside `wasmedge_on_gpu`. -/
def get_gpu_info_from_nvidia_smi (env : Env) : Option (Except GpuError (List GPUInfo)) :=
  match wasmedge_on_gpu env with
  | none => none
  | some false => some (.ok [])
  | some true =>
    match env.nvidia_smi_query_out with
    | none => some (.error (.spawnFailed ("nvidia-smi".data)))
    | some output =>
      if !output.success then some (.error (.toolFailed ("nvidia-smi".data) output.stderr))
      else some (.ok ((linesOf output.stdout).foldl nvidia_smi_parse_line []))

/-- The mutable scan state of `get_gpu_info_from_lshw`. -/
structure LshwScan where
  current_vendor : Option Str
  current_product : Option Str
  gpus : List GPUInfo
  deriving DecidableEq, Repr

/-- The first half of the `for line in stdout.lines()` loop body of
`get_gpu_info_from_lshw`: trim the line and record a pending `vendor:` or
`product:` value. -/
def lshw_pending_update (st : LshwScan) (rawLine : Str) : LshwScan :=
  let line := trimL rawLine
  let st :=
    if ("vendor:".data).isPrefixOf line then
      { st with current_vendor := some (trimL (trimStartMatches line ("vendor:".data))) }
    else st
  if ("product:".data).isPrefixOf line then
    { st with current_product := some (trimL (trimStartMatches line ("product:".data))) }
  else st

/-- The body of the `for line in stdout.lines()` loop of
`get_gpu_info_from_lshw`: update the pending values, and when both are held
emit one record and reset both. -/
def lshw_line_step (st : LshwScan) (rawLine : Str) : LshwScan :=
  let st := lshw_pending_update st rawLine
  match st.current_vendor, st.current_product with
  | some vendor, some product =>
    { current_vendor := none, current_product := none,
      gpus := st.gpus ++
        [{ manufacturer := vendor, model := product, memory := none, cores := none }] }
  | _, _ => st

/-- `get_gpu_info_from_lshw` of `src/lib.rs`. -/
def get_gpu_info_from_lshw (env : Env) : Except GpuError (List GPUInfo) :=
  match env.lshw_out with
  | none => .error (.spawnFailed ("lshw".data))
  | some output =>
    if !output.success then .error (.toolFailed ("lshw".data) output.stderr)
    else .ok ((linesOf output.stdout).foldl lshw_line_step ⟨none, none, []⟩).gpus

/-- `get_linux_gpu_info` of `src/lib.rs`. -/
def get_linux_gpu_info (env : Env) : Option (Except GpuError (List GPUInfo)) :=
  if is_nvidia_smi_installed env then get_gpu_info_from_nvidia_smi env
  else some (get_gpu_info_from_lshw env)

/-- `get_system_info` of `src/lib.rs`: the `?` on `get_linux_gpu_info`
propagates a Linux GPU error; an empty GPU list becomes `none`; outer `none`
models a panic inside the macOS or nvidia GPU path. -/
def get_system_info (env : Env) : Option (Except GpuError SystemInfo) :=
  let gpu_res : Option (Except GpuError (List GPUInfo)) :=
    if env.platform = .macos then (get_macos_gpu_info env).map .ok
    else if env.platform = .linux then get_linux_gpu_info env
    else some (.ok [])
  gpu_res.map (Except.map fun gpu_info =>
    { cpu := get_cpu_info env
      gpu := if gpu_info.isEmpty then none else some gpu_info
      ram := get_ram_info env
      os := get_os_info env })

/-- The KB quantity the Linux memory-statistics source reports, when it is
readable and parsable: the second whitespace-delimited token of the first
`MemTotal` line, parsed as a `u64`. `none` captures "unavailable or
unparsable" (no such line, no second token, or parse failure). -/
def memTotalKB (content : Str) : Option Nat :=
  ((linesOf content).find? (fun l => ("MemTotal".data).isPrefixOf l)).bind
    (fun l => ((splitWs l).get? 1).bind parseU64)

/-- Refinement counterpart of the Linux branch of `get_ram_info`, written from
the spec's words: locate the `MemTotal` line; its second whitespace-delimited
token is a quantity in KB; parse it to an integer, with failure yielding 0;
convert KB to GB by dividing by 1024² with truncation. -/
def ram_linux_spec (content : Str) : Nat :=
  match (linesOf content).find? (fun l => ("MemTotal".data).isPrefixOf l) with
  | none => 0
  | some l => ((((splitWs l).get? 1).bind parseU64).getD 0) / (1024 * 1024)

/-- A Linux host on which every optional source fails: every sysctl read,
file read and process spawn errors out. -/
def baseEnv : Env :=
  { platform := .linux
    machdep_cpu_brand_string := none
    hw_memsize := none
    kern_osrelease := none
    hw_machine := none
    available_parallelism := none
    proc_meminfo := none
    etc_os_release := none
    proc_version := none
    consts_arch := ("x86_64".data)
    system_profiler_out := none
    nvidia_smi_version_out := none
    nvidia_smi_plain_out := none
    nvidia_smi_query_out := none
    lshw_out := none }

/-- A macOS host on which every optional source fails. -/
def macBaseEnv : Env := { baseEnv with platform := .macos }

/-- Linux host: `nvidia-smi --version` fails to spawn (tool absent), `lshw`
runs but exits with non-success status and stderr `boom`. -/
def envLshwFails : Env :=
  { baseEnv with lshw_out := some ⟨false, [], ("boom".data)⟩ }

/-- Linux host whose memory-statistics file reports a quantity below one GB. -/
def envRamBelowGB : Env :=
  { baseEnv with proc_meminfo := some ("MemTotal:       1000 kB".data) }

/-- Linux host whose memory-statistics file carries the spec's scenario
line. -/
def envRam16G : Env :=
  { baseEnv with proc_meminfo := some ("MemTotal:       16777216 kB".data) }

/-- Linux host whose OS-release file carries the spec's scenario line. -/
def envUbuntu : Env :=
  { baseEnv with etc_os_release := some ("PRETTY_NAME=\"Ubuntu 22.04.3 LTS\"".data) }

/-- Linux host whose OS-release `PRETTY_NAME` value itself contains an `=`. -/
def envEqInValue : Env :=
  { baseEnv with etc_os_release := some ("PRETTY_NAME=\"A=B\"".data) }

/-- Linux host reporting 8 logical execution units. -/
def envPar8 : Env :=
  { baseEnv with available_parallelism := some ⟨8, by decide⟩ }

/-- macOS host whose display-information utility prints the spec's scenario
lines. -/
def envAppleM2 : Env :=
  { macBaseEnv with
    system_profiler_out :=
      some ⟨true, ("      Chipset Model: Apple M2\n      Total Number of Cores: 10".data), []⟩ }

/-- macOS host whose display-information utility prints lines matching none of
the three patterns. -/
def envNoPatterns : Env :=
  { macBaseEnv with
    system_profiler_out := some ⟨true, ("Graphics/Displays:\n    Displays:".data), []⟩ }

/-- Linux host: `nvidia-smi` is installed; its plain invocation's output
mentions no `wasmedge` process; the `name,memory.total` query would report one
GPU with 24576 MiB. -/
def envNoWasmedge : Env :=
  { baseEnv with
    nvidia_smi_version_out := some ⟨true, [], []⟩
    nvidia_smi_plain_out := some ⟨true, ("No running processes found".data), []⟩
    nvidia_smi_query_out := some ⟨true, ("NVIDIA GeForce RTX 3090, 24576".data), []⟩ }

/-- Linux host: `nvidia-smi` is installed and its plain invocation's output
mentions a `wasmedge` process; the query reports one GPU with 24576 MiB. -/
def envWasmedge : Env :=
  { envNoWasmedge with
    nvidia_smi_plain_out := some ⟨true, ("|    0   N/A  N/A      1234      C   wasmedge".data), []⟩ }

/-- Linux host: `nvidia-smi` absent, `lshw -C display` prints the spec's
scenario lines. -/
def envLshwAmd : Env :=
  { baseEnv with
    lshw_out :=
      some ⟨true,
        ("       vendor: Advanced Micro Devices, Inc.\n       product: Radeon RX 6800".data),
        []⟩ }

/-- Linux host on a platform the crate does not recognise. -/
def envOther : Env := { baseEnv with platform := .other }

lemma splitP_ne_nil (p : Char → Bool) (l : Str) : splitP p l ≠ [] := by
  induction l with
  | nil => simp [splitP]
  | cons c rest ih =>
    rw [splitP]
    split
    · simp
    · cases h : splitP p rest with
      | nil => exact absurd h ih
      | cons s ss => simp [h]

lemma splitP_head (p : Char → Bool) (l : Str) :
    (splitP p l).head? = some (l.takeWhile (fun c => !p c)) := by
  induction l with
  | nil => simp [splitP]
  | cons c rest ih =>
    rw [splitP]
    by_cases hc : p c
    · simp [hc]
    · cases h : splitP p rest with
      | nil => exact absurd h (splitP_ne_nil p rest)
      | cons s ss =>
        rw [h] at ih
        simp only [List.head?_cons, Option.some.injEq] at ih
        simp [hc, h, List.takeWhile_cons, ih]

lemma splitP_append (p : Char → Bool) (pre rest : Str) (c : Char)
    (hpre : ∀ a ∈ pre, p a = false) (hc : p c = true) :
    splitP p (pre ++ c :: rest) = pre :: splitP p rest := by
  induction pre with
  | nil => simp [splitP, hc]
  | cons a pre' ih =>
    have ha : p a = false := hpre a (by simp)
    have ih' := ih (fun x hx => hpre x (by simp [hx]))
    simp only [List.cons_append]
    rw [splitP, ih']
    simp [ha]

lemma macos_step_no_match (g : GPUInfo) (line : Str)
    (h1 : captureRest ("Chipset Model: ".data) line = none)
    (h2 : captureDigits ("Total Number of Cores: ".data) line = none)
    (h3 : captureRest ("Vendor: ".data) line = none) :
    macos_gpu_line_step g line = g := by
  simp [macos_gpu_line_step, h1, h2, h3]

lemma foldl_macos_no_match (ls : List Str) (g : GPUInfo)
    (h : ∀ l ∈ ls,
      captureRest ("Chipset Model: ".data) l = none ∧
      captureDigits ("Total Number of Cores: ".data) l = none ∧
      captureRest ("Vendor: ".data) l = none) :
    ls.foldl macos_gpu_line_step g = g := by
  induction ls generalizing g with
  | nil => rfl
  | cons a tl ih =>
    have ha := h a (by simp)
    simp only [List.foldl_cons]
    rw [macos_step_no_match g a ha.1 ha.2.1 ha.2.2]
    exact ih g (fun l hl => h l (by simp [hl]))

lemma lshw_pending_gpus (st : LshwScan) (line : Str) :
    (lshw_pending_update st line).gpus = st.gpus := by
  rw [lshw_pending_update]
  split <;> split <;> rfl

lemma lshw_step_mem (st : LshwScan) (line : Str) (g : GPUInfo)
    (hg : g ∈ (lshw_line_step st line).gpus) :
    g ∈ st.gpus ∨ (g.memory = none ∧ g.cores = none) := by
  rw [lshw_line_step] at hg
  cases hv : (lshw_pending_update st line).current_vendor with
  | none =>
    cases hp : (lshw_pending_update st line).current_product with
    | none => rw [hv, hp] at hg; rw [lshw_pending_gpus] at hg; exact .inl hg
    | some product => rw [hv, hp] at hg; rw [lshw_pending_gpus] at hg; exact .inl hg
  | some vendor =>
    cases hp : (lshw_pending_update st line).current_product with
    | none => rw [hv, hp] at hg; rw [lshw_pending_gpus] at hg; exact .inl hg
    | some product =>
      rw [hv, hp] at hg
      simp only [lshw_pending_gpus, List.mem_append, List.mem_singleton] at hg
      cases hg with
      | inl h => exact .inl h
      | inr h => exact .inr (by rw [h]; exact ⟨rfl, rfl⟩)

lemma lshw_foldl_mem (ls : List Str) (st : LshwScan) (g : GPUInfo)
    (hg : g ∈ (ls.foldl lshw_line_step st).gpus)
    (hst : ∀ g' ∈ st.gpus, g'.memory = none ∧ g'.cores = none) :
    g.memory = none ∧ g.cores = none := by
  induction ls generalizing st with
  | nil => exact hst g hg
  | cons a tl ih =>
    simp only [List.foldl_cons] at hg
    refine ih (lshw_line_step st a) hg (fun g' hg' => ?_)
    cases lshw_step_mem st a g' hg' with
    | inl h => exact hst g' h
    | inr h => exact h

/-- C1, as stated, is false on the code: with `nvidia-smi` absent and `lshw`
exiting unsuccessfully with stderr `boom`, the Linux GPU detector returns a
detector-level error and `get_system_info` returns that same error to its
caller instead of swallowing it (`get_linux_gpu_info()?` propagates). -/
theorem c1_counterexample :
    get_linux_gpu_info envLshwFails =
      some (.error (.toolFailed ("lshw".data) ("boom".data))) ∧
    get_system_info envLshwFails =
      some (.error (.toolFailed ("lshw".data) ("boom".data))) := by
  exact ⟨rfl, rfl⟩

/-- C1 (amended): the Aggregator propagates a detector-level Linux GPU error
to its caller unchanged; when the Linux GPU detector succeeds, or on macOS and
other platforms, it returns a complete record, rendering an empty GPU
sequence as an omitted (`none`) field. -/
theorem c1_amended :
    (∀ env e, env.platform = .linux → get_linux_gpu_info env = some (.error e) →
      get_system_info env = some (.error e)) ∧
    (∀ env gs, env.platform = .linux → get_linux_gpu_info env = some (.ok gs) →
      get_system_info env = some (.ok
        { cpu := get_cpu_info env
          gpu := if gs.isEmpty then none else some gs
          ram := get_ram_info env
          os := get_os_info env })) ∧
    (∀ env gs, env.platform = .macos → get_macos_gpu_info env = some gs →
      get_system_info env = some (.ok
        { cpu := get_cpu_info env
          gpu := if gs.isEmpty then none else some gs
          ram := get_ram_info env
          os := get_os_info env })) ∧
    (∀ env, env.platform = .other →
      get_system_info env = some (.ok
        { cpu := get_cpu_info env, gpu := none, ram := get_ram_info env,
          os := get_os_info env })) := by
  refine ⟨?_, ?_, ?_, ?_⟩
  · intro env e h1 h2
    simp [get_system_info, h1, h2, Except.map]
  · intro env gs h1 h2
    simp [get_system_info, h1, h2, Except.map]
  · intro env gs h1 h2
    simp [get_system_info, h1, h2, Except.map]
  · intro env h1
    simp [get_system_info, h1, Except.map]

/-- C1 (amended) at concrete hosts: the failing-`lshw` Linux host yields the
propagated error, and an unrecognised platform yields a complete record with
the GPU field omitted. -/
theorem c1_amended_witness :
    get_system_info envLshwFails =
      some (.error (.toolFailed ("lshw".data) ("boom".data))) ∧
    get_system_info envOther =
      some (.ok
        { cpu := get_cpu_info envOther, gpu := none, ram := get_ram_info envOther,
          os := get_os_info envOther }) :=
  ⟨c1_amended.1 envLshwFails _ rfl rfl, c1_amended.2.2.2 envOther rfl⟩

/-- C2: the CPU detector (a total function) always reports at least one core;
the count equals the runtime-reported number of logical execution units when
that report succeeds, and is exactly 1 when it fails. -/
theorem c2_cpu_cores (env : Env) :
    1 ≤ (get_cpu_info env).cores ∧
    (∀ p : { n : Nat // 0 < n }, env.available_parallelism = some p →
      (get_cpu_info env).cores = p.val) ∧
    (env.available_parallelism = none → (get_cpu_info env).cores = 1) := by
  refine ⟨?_, ?_, ?_⟩
  · cases h : env.available_parallelism with
    | none => simp [get_cpu_info, h]
    | some p => simpa [get_cpu_info, h] using p.2
  · intro p hp
    simp [get_cpu_info, hp]
  · intro hp
    simp [get_cpu_info, hp]

/-- C2 at concrete hosts: 8 reported units give 8 cores; a failed report gives
1 core, and the bound holds there. -/
theorem c2_cpu_cores_witness :
    (get_cpu_info envPar8).cores = 8 ∧ (get_cpu_info baseEnv).cores = 1 ∧
    1 ≤ (get_cpu_info baseEnv).cores :=
  ⟨(c2_cpu_cores envPar8).2.1 ⟨8, by decide⟩ rfl, (c2_cpu_cores baseEnv).2.2 rfl,
    (c2_cpu_cores baseEnv).1⟩

/-- C3, as stated, is false on the code: a readable memory-statistics file
whose `MemTotal` quantity parses to 1000 KB (below one GB) still yields
total = 0, so total = 0 does not imply the source was unavailable or
unparsable. -/
theorem c3_counterexample :
    envRamBelowGB.proc_meminfo = some ("MemTotal:       1000 kB".data) ∧
    memTotalKB ("MemTotal:       1000 kB".data) = some 1000 ∧
    (get_ram_info envRamBelowGB).total = 0 := by
  exact ⟨rfl, by decide, by decide⟩

/-- C3 (amended): the RAM detector returns 0 whenever its source is
unavailable or unparsable, and whenever the source is readable and parses the
total equals the reported quantity converted to GB with truncation toward
zero (hence also 0 for quantities below one GB): on Linux the `MemTotal` KB
quantity divided by 1024², on macOS the `hw.memsize` byte count divided by
1024³. -/
theorem c3_amended :
    (∀ env, env.platform = .linux → env.proc_meminfo = none →
      (get_ram_info env).total = 0) ∧
    (∀ env content, env.platform = .linux → env.proc_meminfo = some content →
      memTotalKB content = none → (get_ram_info env).total = 0) ∧
    (∀ env content v, env.platform = .linux → env.proc_meminfo = some content →
      memTotalKB content = some v → (get_ram_info env).total = v / 1024 / 1024) ∧
    (∀ env, env.platform = .macos → env.hw_memsize = none →
      (get_ram_info env).total = 0) ∧
    (∀ env s, env.platform = .macos → env.hw_memsize = some s → parseU64 s = none →
      (get_ram_info env).total = 0) ∧
    (∀ env s v, env.platform = .macos → env.hw_memsize = some s → parseU64 s = some v →
      (get_ram_info env).total = v / 1024 / 1024 / 1024) := by
  refine ⟨?_, ?_, ?_, ?_, ?_, ?_⟩
  · intro env h1 h2
    simp [get_ram_info, h1, h2]
    decide
  · intro env content h1 h2 h3
    rw [memTotalKB] at h3
    cases hfind : (linesOf content).find? (fun l => ("MemTotal".data).isPrefixOf l) with
    | none =>
      simp [get_ram_info, h1, h2, hfind]
      decide
    | some l =>
      rw [hfind] at h3
      simp only [Option.some_bind, List.get?_eq_getElem?] at h3
      simp [get_ram_info, h1, h2, hfind, h3]
  · intro env content v h1 h2 h3
    rw [memTotalKB] at h3
    cases hfind : (linesOf content).find? (fun l => ("MemTotal".data).isPrefixOf l) with
    | none => rw [hfind] at h3; simp at h3
    | some l =>
      rw [hfind] at h3
      simp only [Option.some_bind, List.get?_eq_getElem?] at h3
      simp [get_ram_info, h1, h2, hfind, h3]
  · intro env h1 h2
    simp [get_ram_info, h1, h2]
  · intro env s h1 h2 h3
    simp [get_ram_info, h1, h2, h3]
  · intro env s v h1 h2 h3
    simp [get_ram_info, h1, h2, h3]

/-- C3 (amended) at concrete hosts: an unreadable source gives 0; the
16777216 KB source gives 16777216 / 1024² GB. -/
theorem c3_amended_witness :
    (get_ram_info baseEnv).total = 0 ∧
    (get_ram_info envRam16G).total = 16777216 / 1024 / 1024 :=
  ⟨c3_amended.1 baseEnv rfl rfl,
    c3_amended.2.2.1 envRam16G _ 16777216 rfl rfl (by decide)⟩

/-- C4: on Linux, for every readable memory-statistics file content, the RAM
detector computes exactly the spec's algorithm (`MemTotal` line, second
whitespace token, parse with failure yielding 0, truncating division by
1024²), and the spec's scenario content yields total = 16. -/
theorem c4_ram_linux :
    (∀ env content, env.platform = .linux → env.proc_meminfo = some content →
      (get_ram_info env).total = ram_linux_spec content) ∧
    ram_linux_spec ("MemTotal:       16777216 kB".data) = 16 := by
  constructor
  · intro env content h1 h2
    rw [ram_linux_spec]
    cases hfind : (linesOf content).find? (fun l => ("MemTotal".data).isPrefixOf l) with
    | none =>
      simp [get_ram_info, h1, h2, hfind]
      decide
    | some l =>
      simp [get_ram_info, h1, h2, hfind, Nat.div_div_eq_div_mul]
  · decide

/-- C4 at the concrete scenario host: the detector agrees with the spec's
algorithm on the 16777216 KB content. -/
theorem c4_ram_linux_witness :
    (get_ram_info envRam16G).total = ram_linux_spec ("MemTotal:       16777216 kB".data) :=
  c4_ram_linux.1 envRam16G _ rfl rfl

/-- C5, as stated, is false on the code: for the OS-release content
`PRETTY_NAME="A=B"`, the value after the first `=` is `"A=B"` (quotes
stripped: `A=B`), but `split('=').nth(1)` takes only the segment between the
first and second `=`, so the detector reports `A`. -/
theorem c5_counterexample :
    envEqInValue.etc_os_release = some ("PRETTY_NAME=\"A=B\"".data) ∧
    (get_os_info envEqInValue).name = ("A".data) ∧
    ("A".data : Str) ≠ ("A=B".data) := by
  exact ⟨rfl, by decide, by decide⟩

/-- C5 (amended): on Linux the OS detector derives the name from the first
line starting with `PRETTY_NAME` by taking the text strictly between the
first `=` and the next `=` (or the end of the line) and removing all
double-quote characters; the name defaults to `Linux` when the file is
unreadable or no such line exists; the scenario line
`PRETTY_NAME="Ubuntu 22.04.3 LTS"` yields `Ubuntu 22.04.3 LTS`. -/
theorem c5_os_name :
    (∀ env, env.platform = .linux → env.etc_os_release = none →
      (get_os_info env).name = ("Linux".data)) ∧
    (∀ env content, env.platform = .linux → env.etc_os_release = some content →
      (linesOf content).find? (fun l => ("PRETTY_NAME".data).isPrefixOf l) = none →
      (get_os_info env).name = ("Linux".data)) ∧
    (∀ env content pre rest, env.platform = .linux → env.etc_os_release = some content →
      (linesOf content).find? (fun l => ("PRETTY_NAME".data).isPrefixOf l) =
        some (pre ++ '=' :: rest) →
      (∀ a ∈ pre, a ≠ '=') →
      (get_os_info env).name = removeQuotes (rest.takeWhile (fun c => c ≠ '='))) ∧
    (get_os_info envUbuntu).name = ("Ubuntu 22.04.3 LTS".data) := by
  refine ⟨?_, ?_, ?_, by decide⟩
  · intro env h1 h2
    simp [get_os_info, h1, h2]
    decide
  · intro env content h1 h2 hfind
    simp [get_os_info, h1, h2, hfind]
  · intro env content pre rest h1 h2 hfind hpre
    have hpre' : ∀ a ∈ pre, (fun c => decide (c = '=')) a = false := by
      intro a ha
      simpa using hpre a ha
    have hsplit : splitChar '=' (pre ++ '=' :: rest) =
        pre :: splitP (fun c => decide (c = '=')) rest := by
      rw [splitChar]
      exact splitP_append _ pre rest '=' hpre' (by decide)
    obtain ⟨s, ss, hs⟩ : ∃ s ss, splitP (fun c => decide (c = '=')) rest = s :: ss := by
      cases h : splitP (fun c => decide (c = '=')) rest with
      | nil => exact absurd h (splitP_ne_nil _ _)
      | cons s ss => exact ⟨s, ss, rfl⟩
    have hhead := splitP_head (fun c => decide (c = '=')) rest
    rw [hs] at hhead
    simp only [List.head?_cons, Option.some.injEq] at hhead
    simp [get_os_info, h1, h2, hfind, hsplit, hs, hhead, decide_not]

/-- C5 (amended) at concrete hosts: the scenario content yields the quoted
name with quotes stripped, derived through the between-equals rule, and an
unreadable file yields `Linux`. -/
theorem c5_os_name_witness :
    (get_os_info envUbuntu).name =
      removeQuotes (("\"Ubuntu 22.04.3 LTS\"".data).takeWhile (fun c => c ≠ '=')) ∧
    (get_os_info baseEnv).name = ("Linux".data) :=
  ⟨c5_os_name.2.2.1 envUbuntu ("PRETTY_NAME=\"Ubuntu 22.04.3 LTS\"".data)
      ("PRETTY_NAME".data) ("\"Ubuntu 22.04.3 LTS\"".data) rfl rfl (by decide) (by decide),
    c5_os_name.1 baseEnv rfl rfl⟩

/-- C6, as stated, is false on the code: on a Linux host with the OS-release
source unavailable, the name defaults to `Linux`, not `Unknown`. -/
theorem c6_counterexample :
    baseEnv.platform = .linux ∧
    baseEnv.etc_os_release = none ∧
    (get_os_info baseEnv).name = ("Linux".data) ∧
    (("Linux".data) : Str) ≠ ("Unknown".data) := by
  exact ⟨rfl, rfl, by decide, by decide⟩

/-- C6 (amended): each OS field depends only on its own source, so a failure
of one source never affects the other two; the per-field defaults are:
on Linux, name defaults to `Linux` (not `Unknown`), version defaults to
`Unknown`, and architecture is the runtime constant with no failure path;
on macOS, name is fixed `macOS` while version and architecture each
independently default to `Unknown`. -/
theorem c6_os_fields :
    (∀ env, env.platform = .linux → env.etc_os_release = none →
      (get_os_info env).name = ("Linux".data)) ∧
    (∀ env, env.platform = .linux → env.proc_version = none →
      (get_os_info env).version = ("Unknown".data)) ∧
    (∀ env, env.platform = .linux → (get_os_info env).architecture = env.consts_arch) ∧
    (∀ env, env.platform = .macos → (get_os_info env).name = ("macOS".data)) ∧
    (∀ env, env.platform = .macos → env.kern_osrelease = none →
      (get_os_info env).version = ("Unknown".data)) ∧
    (∀ env, env.platform = .macos → env.hw_machine = none →
      (get_os_info env).architecture = ("Unknown".data)) ∧
    (∀ e1 e2, e1.platform = e2.platform → e1.etc_os_release = e2.etc_os_release →
      (get_os_info e1).name = (get_os_info e2).name) ∧
    (∀ e1 e2, e1.platform = e2.platform → e1.kern_osrelease = e2.kern_osrelease →
      e1.proc_version = e2.proc_version →
      (get_os_info e1).version = (get_os_info e2).version) ∧
    (∀ e1 e2, e1.platform = e2.platform → e1.hw_machine = e2.hw_machine →
      e1.consts_arch = e2.consts_arch →
      (get_os_info e1).architecture = (get_os_info e2).architecture) := by
  refine ⟨?_, ?_, ?_, ?_, ?_, ?_, ?_, ?_, ?_⟩
  · intro env h1 h2
    simp [get_os_info, h1, h2]
    decide
  · intro env h1 h2
    simp [get_os_info, h1, h2]
  · intro env h1
    simp [get_os_info, h1]
  · intro env h1
    simp [get_os_info, h1]
  · intro env h1 h2
    simp [get_os_info, h1, h2]
  · intro env h1 h2
    simp [get_os_info, h1, h2]
  · intro e1 e2 hp ho
    cases hpf : e1.platform <;> simp [get_os_info, ← hp, hpf, ho]
  · intro e1 e2 hp hk hv
    cases hpf : e1.platform <;> simp [get_os_info, ← hp, hpf, hk, hv]
  · intro e1 e2 hp hm ha
    cases hpf : e1.platform <;> simp [get_os_info, ← hp, hpf, hm, ha]

/-- C6 (amended) at concrete hosts: the all-sources-failed Linux host yields
name `Linux` and version `Unknown`; the all-sources-failed macOS host yields
version and architecture `Unknown`; and two Linux hosts differing only in
their version source report the same name. -/
theorem c6_os_fields_witness :
    (get_os_info baseEnv).name = ("Linux".data) ∧
    (get_os_info baseEnv).version = ("Unknown".data) ∧
    (get_os_info macBaseEnv).version = ("Unknown".data) ∧
    (get_os_info macBaseEnv).architecture = ("Unknown".data) ∧
    (get_os_info baseEnv).name =
      (get_os_info { baseEnv with proc_version := some ("Linux version 6.8.0".data) }).name :=
  ⟨c6_os_fields.1 baseEnv rfl rfl,
    c6_os_fields.2.1 baseEnv rfl rfl,
    c6_os_fields.2.2.2.2.1 macBaseEnv rfl rfl,
    c6_os_fields.2.2.2.2.2.1 macBaseEnv rfl rfl,
    c6_os_fields.2.2.2.2.2.2.1 baseEnv
      { baseEnv with proc_version := some ("Linux version 6.8.0".data) } rfl rfl⟩

/-- C7: the macOS GPU detector returns exactly a one-element sequence whenever
the display utility spawns; within the accumulated record a later matching
line overwrites the earlier value of its field (model from `Chipset Model:`,
cores from `Total Number of Cores:`, manufacturer from `Vendor:`, each capture
trimmed, in the source's priority order); and the spec's scenario output
yields model `Apple M2` with 10 cores. -/
theorem c7_macos_single_record :
    (∀ env out gs, env.system_profiler_out = some out →
      get_macos_gpu_info env = some gs → gs.length = 1) ∧
    (∀ g ls line cap, captureRest ("Chipset Model: ".data) line = some cap →
      ((ls ++ [line]).foldl macos_gpu_line_step g).model = trimL cap) ∧
    (∀ g ls line ds, captureRest ("Chipset Model: ".data) line = none →
      captureDigits ("Total Number of Cores: ".data) line = some ds →
      ((ls ++ [line]).foldl macos_gpu_line_step g).cores =
        some ((parseU32 (trimL ds)).getD 0)) ∧
    (∀ g ls line cap, captureRest ("Chipset Model: ".data) line = none →
      captureDigits ("Total Number of Cores: ".data) line = none →
      captureRest ("Vendor: ".data) line = some cap →
      ((ls ++ [line]).foldl macos_gpu_line_step g).manufacturer = trimL cap) ∧
    get_macos_gpu_info envAppleM2 =
      some [{ manufacturer := ("Unknown".data), model := ("Apple M2".data),
              memory := none, cores := some 10 }] := by
  refine ⟨?_, ?_, ?_, ?_, by decide⟩
  · intro env out gs hsp h
    simp [get_macos_gpu_info, hsp] at h
    simp [← h]
  · intro g ls line cap h1
    simp [List.foldl_append, macos_gpu_line_step, h1]
  · intro g ls line ds h1 h2
    simp [List.foldl_append, macos_gpu_line_step, h1, h2]
  · intro g ls line cap h1 h2 h3
    simp [List.foldl_append, macos_gpu_line_step, h1, h2, h3]

/-- C7 at concrete inputs: the scenario host produces a one-element sequence,
and a later `Chipset Model:` line overwrites an earlier model value. -/
theorem c7_macos_single_record_witness :
    ([{ manufacturer := ("Unknown".data), model := ("Apple M2".data), memory := none,
        cores := some 10 }] : List GPUInfo).length = 1 ∧
    (([("Chipset Model: Intel Iris".data)] ++ [("Chipset Model: Apple M2".data)]).foldl
        macos_gpu_line_step
        { manufacturer := ("Unknown".data), model := ("Unknown".data), memory := none,
          cores := none }).model = trimL ("Apple M2".data) :=
  ⟨c7_macos_single_record.1 envAppleM2
      ⟨true, ("      Chipset Model: Apple M2\n      Total Number of Cores: 10".data), []⟩
      _ rfl (by decide),
    c7_macos_single_record.2.1 _ _ ("Chipset Model: Apple M2".data)
      ("Apple M2".data) (by decide)⟩

/-- C8, as stated, is false on the code: on a Linux host where `nvidia-smi`
is available but its plain output mentions no `wasmedge` process, the
detector returns an empty list without issuing the `name,memory.total` query,
even though that query's output holds a well-formed two-field line that the
line parser would turn into a record. -/
theorem c8_counterexample :
    is_nvidia_smi_installed envNoWasmedge = true ∧
    envNoWasmedge.nvidia_smi_query_out =
      some ⟨true, ("NVIDIA GeForce RTX 3090, 24576".data), []⟩ ∧
    nvidia_smi_parse_line [] ("NVIDIA GeForce RTX 3090, 24576".data) =
      [{ manufacturer := ("NVIDIA".data), model := ("NVIDIA GeForce RTX 3090".data),
         memory := some 24, cores := none }] ∧
    get_linux_gpu_info envNoWasmedge = some (.ok []) := by
  exact ⟨rfl, rfl, by decide, by decide⟩

/-- C8 (amended): on Linux with the vendor tool available, the detector first
probes plain `nvidia-smi` output for a line containing `wasmedge`; only when
one is present does it run the `name,memory.total` query, where every
two-field output line yields exactly one record with manufacturer `NVIDIA`,
model the first field, memory the second field (a decimal MiB count) divided
by 1024 with truncation, and cores undetermined; with no `wasmedge` line the
detector returns an empty list. -/
theorem c8_nvidia_preferred :
    (∀ env outPlain, is_nvidia_smi_installed env = true →
      env.nvidia_smi_plain_out = some outPlain →
      ((linesOf outPlain.stdout).filter
          (fun l => containsSub ("wasmedge".data) l)).isEmpty = true →
      get_linux_gpu_info env = some (.ok [])) ∧
    (∀ env outPlain out, is_nvidia_smi_installed env = true →
      env.nvidia_smi_plain_out = some outPlain →
      ((linesOf outPlain.stdout).filter
          (fun l => containsSub ("wasmedge".data) l)).isEmpty = false →
      env.nvidia_smi_query_out = some out → out.success = true →
      get_linux_gpu_info env =
        some (.ok ((linesOf out.stdout).foldl nvidia_smi_parse_line []))) ∧
    (∀ gpus line f0 f1, (splitChar ',' line).map trimL = [f0, f1] →
      nvidia_smi_parse_line gpus line =
        gpus ++ [{ manufacturer := ("NVIDIA".data), model := f0,
                   memory := parse_f32_mib_to_gb f1, cores := none }]) ∧
    (∀ f1, f1 ≠ [] → f1.all Char.isDigit = true → digitsVal f1 < 2 ^ 24 →
      parse_f32_mib_to_gb f1 = some (digitsVal f1 / 1024)) ∧
    get_linux_gpu_info envWasmedge =
      some (.ok [{ manufacturer := ("NVIDIA".data),
                   model := ("NVIDIA GeForce RTX 3090".data), memory := some 24,
                   cores := none }]) := by
  refine ⟨?_, ?_, ?_, ?_, by decide⟩
  · intro env outPlain h1 h2 h3
    simp [get_linux_gpu_info, h1, get_gpu_info_from_nvidia_smi, wasmedge_on_gpu, h2, h3]
  · intro env outPlain out h1 h2 h3 h4 h5
    simp [get_linux_gpu_info, h1, get_gpu_info_from_nvidia_smi, wasmedge_on_gpu, h2, h3,
      h4, h5]
  · intro gpus line f0 f1 h
    simp [nvidia_smi_parse_line, h]
  · intro f1 h1 h2 h3
    have h3' : digitsVal f1 < 16777216 := by omega
    simp [parse_f32_mib_to_gb, h1, h2, h3']

/-- C8 (amended) at concrete hosts: the wasmedge-running host yields the
parsed record (24576 MiB → 24), the wasmedge-free host yields the empty list,
and the 24576 MiB field rescales to 24. -/
theorem c8_nvidia_preferred_witness :
    get_linux_gpu_info envWasmedge =
      some (.ok ((linesOf ("NVIDIA GeForce RTX 3090, 24576".data)).foldl
        nvidia_smi_parse_line [])) ∧
    get_linux_gpu_info envNoWasmedge = some (.ok []) ∧
    parse_f32_mib_to_gb ("24576".data) = some (digitsVal ("24576".data) / 1024) :=
  ⟨c8_nvidia_preferred.2.1 envWasmedge
      ⟨true, ("|    0   N/A  N/A      1234      C   wasmedge".data), []⟩
      ⟨true, ("NVIDIA GeForce RTX 3090, 24576".data), []⟩ rfl rfl (by decide) rfl rfl,
    c8_nvidia_preferred.1 envNoWasmedge
      ⟨true, ("No running processes found".data), []⟩ rfl rfl (by decide),
    c8_nvidia_preferred.2.2.2.1 ("24576".data) (by decide) (by decide) (by decide)⟩

/-- C9: when the availability probe reports the preferred tool unavailable,
the Linux GPU detector is exactly the fallback `lshw` parser; every record
that parser returns has memory and cores absent; a step emits one record
precisely when both a pending vendor and a pending product value are held
after reading the line (and then resets both); and the spec's scenario lines
yield the single expected record. -/
theorem c9_lshw_fallback :
    (∀ env, is_nvidia_smi_installed env = false →
      get_linux_gpu_info env = some (get_gpu_info_from_lshw env)) ∧
    (∀ env gs g, get_gpu_info_from_lshw env = .ok gs → g ∈ gs →
      g.memory = none ∧ g.cores = none) ∧
    (∀ st line vendor product,
      (lshw_pending_update st line).current_vendor = some vendor →
      (lshw_pending_update st line).current_product = some product →
      lshw_line_step st line =
        { current_vendor := none, current_product := none,
          gpus := (lshw_pending_update st line).gpus ++
            [{ manufacturer := vendor, model := product, memory := none,
               cores := none }] }) ∧
    (∀ st line,
      ((lshw_pending_update st line).current_vendor = none ∨
        (lshw_pending_update st line).current_product = none) →
      lshw_line_step st line = lshw_pending_update st line) ∧
    get_gpu_info_from_lshw envLshwAmd =
      .ok [{ manufacturer := ("Advanced Micro Devices, Inc.".data),
             model := ("Radeon RX 6800".data), memory := none, cores := none }] := by
  refine ⟨?_, ?_, ?_, ?_, by decide⟩
  · intro env h
    simp [get_linux_gpu_info, h]
  · intro env gs g hok hg
    cases ho : env.lshw_out with
    | none => rw [get_gpu_info_from_lshw, ho] at hok; simp at hok
    | some output =>
      rw [get_gpu_info_from_lshw, ho] at hok
      cases hs : output.success with
      | false => simp [hs] at hok
      | true =>
        simp [hs] at hok
        subst hok
        exact lshw_foldl_mem _ _ g hg (by simp)
  · intro st line vendor product hv hp
    simp only [lshw_line_step, hv, hp]
  · intro st line hcase
    cases hcase with
    | inl hv =>
      cases hp : (lshw_pending_update st line).current_product <;>
        simp only [lshw_line_step, hv, hp]
    | inr hp =>
      cases hv : (lshw_pending_update st line).current_vendor <;>
        simp only [lshw_line_step, hv, hp]

/-- C9 at concrete inputs: the fallback-only host returns the fallback parse;
its record has memory and cores absent; the scenario's consecutive
vendor/product lines emit exactly that record with both pendings reset. -/
theorem c9_lshw_fallback_witness :
    get_linux_gpu_info envLshwAmd = some (get_gpu_info_from_lshw envLshwAmd) ∧
    ({ manufacturer := ("Advanced Micro Devices, Inc.".data),
       model := ("Radeon RX 6800".data), memory := none,
       cores := none } : GPUInfo).memory = none ∧
    lshw_line_step ⟨some ("Advanced Micro Devices, Inc.".data), none, []⟩
        ("       product: Radeon RX 6800".data) =
      { current_vendor := none, current_product := none,
        gpus := [{ manufacturer := ("Advanced Micro Devices, Inc.".data),
                   model := ("Radeon RX 6800".data), memory := none, cores := none }] } :=
  ⟨c9_lshw_fallback.1 envLshwAmd rfl,
    (c9_lshw_fallback.2.1 envLshwAmd
      [{ manufacturer := ("Advanced Micro Devices, Inc.".data),
         model := ("Radeon RX 6800".data), memory := none, cores := none }]
      { manufacturer := ("Advanced Micro Devices, Inc.".data),
        model := ("Radeon RX 6800".data), memory := none, cores := none }
      (by decide) (by decide)).1,
    c9_lshw_fallback.2.2.1 ⟨some ("Advanced Micro Devices, Inc.".data), none, []⟩
      ("       product: Radeon RX 6800".data) ("Advanced Micro Devices, Inc.".data)
      ("Radeon RX 6800".data) (by decide) (by decide)⟩

/-- C10: on macOS, when no line of the display utility's output matches any of
the three patterns, the detector still returns exactly one record whose
manufacturer and model are both the literal `Unknown` (never omitted or
empty). -/
theorem c10_macos_unknown_defaults (env : Env) (out : CmdOutput)
    (hsp : env.system_profiler_out = some out)
    (h : ∀ l ∈ linesOf out.stdout,
      captureRest ("Chipset Model: ".data) l = none ∧
      captureDigits ("Total Number of Cores: ".data) l = none ∧
      captureRest ("Vendor: ".data) l = none) :
    get_macos_gpu_info env =
      some [{ manufacturer := ("Unknown".data), model := ("Unknown".data),
              memory := none, cores := none }] := by
  simp [get_macos_gpu_info, hsp, foldl_macos_no_match _ _ h]

/-- C10 at a concrete host whose display-utility output matches none of the
patterns. -/
theorem c10_macos_unknown_defaults_witness :
    get_macos_gpu_info envNoPatterns =
      some [{ manufacturer := ("Unknown".data), model := ("Unknown".data),
              memory := none, cores := none }] :=
  c10_macos_unknown_defaults envNoPatterns
    ⟨true, ("Graphics/Displays:\n    Displays:".data), []⟩ rfl (by decide)
